import Mathlib

/-!
Verification of the factor-relations engine of the USD/COP daily-briefing
pipeline (`src/analysis/relations.py`).

Numbers are modelled as rationals (`ℚ`); a nullable pandas cell is
`Option ℚ` with `none` playing the role of `NaN`.  Library calls whose
results are square roots (`pandas .std`), ordinary-least-squares fits
(`statsmodels sm.OLS(...).fit()`), rolling correlations and quantiles are
external to the repository and are passed in as function parameters; the
repository's own arithmetic, window slicing, guards and fallbacks are
embedded concretely.
-/

namespace RelacionesCOP

/-- Python `a * b` on possibly-NaN floats: NaN propagates. -/
def omul (a b : Option ℚ) : Option ℚ :=
  match a, b with
  | some x, some y => some (x * y)
  | _, _ => none

/-- Python `a - b` on possibly-NaN floats: NaN propagates. -/
def osub (a b : Option ℚ) : Option ℚ :=
  match a, b with
  | some x, some y => some (x - y)
  | _, _ => none

/-- Python `abs` on a possibly-NaN float: NaN propagates. -/
def oabs (a : Option ℚ) : Option ℚ :=
  a.map (fun x => |x|)

/-- Float `<` with NaN as an operand is false (IEEE-754 comparison). -/
def ltNaN (a b : Option ℚ) : Bool :=
  match a, b with
  | some x, some y => decide (x < y)
  | _, _ => false

/-- Python builtin `min(a, b)`: returns `b` exactly when `b < a`, so a NaN
second argument leaves the first argument in place. -/
def pymin (a b : Option ℚ) : Option ℚ :=
  if ltNaN b a then b else a

/-- Python builtin `max(a, b)`: returns `b` exactly when `a < b`. -/
def pymax (a b : Option ℚ) : Option ℚ :=
  if ltNaN a b then b else a

/-- pandas `.fillna(0)` on one cell. -/
def fillna0 (o : Option ℚ) : Option ℚ :=
  some (o.getD 0)

/-- Number of non-null cells (`Series.count`). -/
def countSome (xs : List (Option ℚ)) : Nat :=
  (xs.filterMap id).length

/-- pandas `Series.mean` over already-non-null values.  (Division by zero
in `ℚ` yields `0`, matching the fact that the call sites below only divide
by nonzero counts.) -/
def mean_q (xs : List ℚ) : ℚ :=
  xs.sum / xs.length

/-- pandas sample variance (`ddof = 1`), i.e. the square of `Series.std`. -/
def var_muestral (xs : List ℚ) : ℚ :=
  if xs.length ≤ 1 then 0
  else (xs.map (fun v => (v - mean_q xs) ^ 2)).sum / ((xs.length : ℚ) - 1)

/-- The trailing window of width `w` ending at position `t` (inclusive),
as sliced by a pandas rolling computation. -/
def ventana_fin (w : Nat) (xs : List (Option ℚ)) (t : Nat) : List (Option ℚ) :=
  (xs.drop (t + 1 - w)).take w

/-- pandas `Series.rolling(w).apply(f, raw=False)` with the default
`min_periods = w`: the output at `t` is null unless the window holds `w`
observations and all of them are non-null; only then is `f` invoked. -/
def rolling_apply (w : Nat) (f : List (Option ℚ) → Option ℚ)
    (xs : List (Option ℚ)) : List (Option ℚ) :=
  (List.range xs.length).map fun t =>
    if w ≤ t + 1 ∧ w ≤ countSome (ventana_fin w xs t) then f (ventana_fin w xs t) else none

/-- The lambda inside `calcular_retornos`: its argument ranges over windows
of `1 + variables`, and it computes `(x + 1).prod() - 1` (pandas `prod`
skips nulls) when at least 3 window cells are non-null, else `0`. -/
def lambda_retornos_5d (x : List (Option ℚ)) : ℚ :=
  if 3 ≤ countSome x then ((x.filterMap id).map (fun v => v + 1)).prod - 1 else 0

/-- The 5-day branch of `calcular_retornos` on one ticker column:
`(1 + variables).rolling(5).apply(lambda x: (x + 1).prod() - 1 if len(x.dropna()) >= 3 else 0)`. -/
def calcular_retornos_5d (col : List (Option ℚ)) : List (Option ℚ) :=
  rolling_apply 5 (fun x => some (lambda_retornos_5d x)) (col.map (Option.map (fun r => 1 + r)))

/-- Follows the spec's words (§4.2): 5-day compounded return over the
trailing window = `∏(1 + r) − 1` over the non-null raw returns if at least
3 of the 5 rows are non-null, otherwise exactly `0`. -/
def retorno_5d_segun_spec (win : List (Option ℚ)) : ℚ :=
  if 3 ≤ countSome win then ((win.filterMap id).map (fun r => 1 + r)).prod - 1 else 0

/-- The value `estandarizar_ventana(x).iloc[-1]` from `estandarizar_variables`.
`sq` is the float square root used by pandas `Series.std`, i.e. the value
`std_val` equals `sq` applied to the sample variance. -/
def estandarizar_ventana_ultimo (sq : ℚ → ℚ) (x : List (Option ℚ)) : Option ℚ :=
  if x.length < 10 then some 0
  else
    let xc := x.filterMap id
    if xc.length < 10 then some 0
    else
      let m := mean_q xc
      let s := sq (var_muestral xc)
      if 0 < s then ((x.getLast?).getD none).map (fun v => (v - m) / s)
      else some 0

/-- One column of `estandarizar_variables`: rolling-90 application of the
window standardizer followed by the frame-level `.fillna(0)`. -/
def estandarizar_col (sq : ℚ → ℚ) (col : List (Option ℚ)) : List ℚ :=
  (rolling_apply 90
      (fun x => if 0 < x.length then estandarizar_ventana_ultimo sq x else some 0)
      col).map (fun o => o.getD 0)

/-- Follows the spec's words (§4.3): with fewer than 10 non-null values in
the trailing window the output is 0; otherwise it is
`(value − window mean) / window std` over the non-null values only, and 0
when the window std is exactly 0. -/
def estandarizar_segun_spec (sq : ℚ → ℚ) (win : List (Option ℚ)) : ℚ :=
  let xc := win.filterMap id
  if xc.length < 10 then 0
  else
    let s := sq (var_muestral xc)
    if s = 0 then 0
    else (((win.getLast?).getD none).getD 0 - mean_q xc) / s

/-- Python `max(dict, key=dict.get)`: fold over the pairs in insertion
order keeping the first strict maximum. -/
def max_llave (l : List (String × ℚ)) : Option String :=
  (l.foldl
    (fun acc p =>
      match acc with
      | none => some p
      | some q => if q.2 < p.2 then some p else some q)
    none).map (fun q => q.1)

/-- The function `elegir_riesgo_local`.  Here `corr90` stands for the pandas library call
`df_5d[ticker].rolling(90).corr(df_5d["COP=X"])` and `sd` for
`Series.std` (a float square root is involved in both); `cols` is the
column set of the standardized 5-day matrix and `colv` its columns. -/
def elegir_riesgo_local (corr90 : List ℚ → List ℚ → List (Option ℚ))
    (sd : List (Option ℚ) → ℚ) (cols : List String) (colv : String → List ℚ) : String :=
  let cands := (["GXG", "ICOL"].filter (fun t => cols.contains t))
  let estab := cands.map
    (fun t => (t, 1 / (sd (corr90 (colv t) (colv "COP=X")) + 1 / 1000000)))
  match max_llave estab with
  | some t => t
  | none => "GXG"

/-- One row of a factor frame: the target cell (`COP=X` column) and the
factor cells in `x_cols` order. -/
structure FRow where
  cop : Option ℚ
  xs : List (Option ℚ)
deriving DecidableEq

/-- The output of `calcular_regresiones` for one horizon: the `betas`
frame (one row per date, columns `const` followed by the factors) and the
`r2` series.  A null cell is `none`. -/
structure Modelo where
  betas : List (List (Option ℚ))
  r2 : List (Option ℚ)
deriving DecidableEq

/-- Row `i` of `X = sm.add_constant(df[x_cols].fillna(0))`: the constant
column followed by the null-filled factor cells. -/
def fila_X (fr : FRow) : List (Option ℚ) :=
  some 1 :: fr.xs.map fillna0

/-- Entry `i` of `y = df["COP=X"].fillna(0)`. -/
def val_y (fr : FRow) : Option ℚ :=
  fillna0 fr.cop

/-- The regression window `[i-90, i)` of the frame (`X.iloc[i-90:i]`). -/
def ventana_reg (F : List FRow) (i : Nat) : List FRow :=
  (F.drop (i - 90)).take 90

/-- One row of `valid_mask`: `~(X_window.isna().any(axis=1) | y_window.isna())`. -/
def fila_valida (fr : FRow) : Bool :=
  (fila_X fr).all (fun o => o.isSome) && (val_y fr).isSome

/-- The count `valid_mask.sum()` over the window at `i`. -/
def valid_count (F : List FRow) (i : Nat) : Nat :=
  ((ventana_reg F i).filter fila_valida).length

/-- The rows `X_window[valid_mask]`, with the (provably all-non-null) cells read off. -/
def ventana_X (F : List FRow) (i : Nat) : List (List ℚ) :=
  ((ventana_reg F i).filter fila_valida).map (fun fr => (fila_X fr).map (fun o => o.getD 0))

/-- The values `y_window[valid_mask]`. -/
def ventana_y (F : List FRow) (i : Nat) : List ℚ :=
  ((ventana_reg F i).filter fila_valida).map (fun fr => (val_y fr).getD 0)

/-- Column-wise `betas.iloc[:i].mean()`: pandas skips null cells and
returns null for a column with no non-null entry.  `w` is the column
count (`const` plus the factors). -/
def col_means (w : Nat) (bs : List (List (Option ℚ))) : List (Option ℚ) :=
  (List.range w).map fun j =>
    let vals := bs.filterMap (fun r => (r.get? j).getD none)
    if vals.isEmpty then none else some (mean_q vals)

/-- The prediction `model.predict(X_current)` for an OLS result: the dot product of the
fitted parameters with the current row. -/
def predecir (p : List ℚ) (x : List ℚ) : ℚ :=
  (List.zipWith (fun a b => a * b) p x).sum

/-- The slice `X.iloc[i:i+1]` (the current, already null-filled, design row). -/
def x_actual (F : List FRow) (i : Nat) : List (Option ℚ) :=
  match F.get? i with
  | some fr => fila_X fr
  | none => []

/-- The entry `y.iloc[i]` (the current, already null-filled, target value). -/
def y_actual (F : List FRow) (i : Nat) : Option ℚ :=
  match F.get? i with
  | some fr => val_y fr
  | none => none

/-- The slice `y.iloc[max(0, i-252):i]` (natural subtraction realizes the `max`). -/
def y_reciente (F : List FRow) (i : Nat) : List (Option ℚ) :=
  (((F.drop (i - 252)).take (i - (i - 252))).map val_y)

/-- The value `ss_res = (y_current - y_pred.iloc[0]) ** 2` at date `i`. -/
def ss_res_dia (F : List FRow) (p : List ℚ) (i : Nat) : ℚ :=
  ((y_actual F i).getD 0 - predecir p ((x_actual F i).map (fun o => o.getD 0))) ^ 2

/-- The value `ss_tot = (y_current - y_recent.mean()) ** 2` at date `i`. -/
def ss_tot_dia (F : List FRow) (i : Nat) : ℚ :=
  ((y_actual F i).getD 0 - mean_q ((y_reciente F i).filterMap id)) ^ 2

/-- The body of the `try` block of `calcular_regresiones` together with
its `except` handler, at date `i`.  The statsmodels call
`sm.OLS(y_valid, X_valid).fit()` is the parameter `fit`; `fit … = none`
models the call raising the exception that the `except` branch catches,
`fit … = some p` models a successful fit with parameters `p`. -/
def reg_ajuste (k : Nat) (fit : List (List ℚ) → List ℚ → Option (List ℚ))
    (F : List FRow) (st : Modelo) (i : Nat) : Modelo :=
  match fit (ventana_X F i) (ventana_y F i) with
  | some p =>
    let st1 : Modelo := { st with betas := st.betas.set i (p.map some) }
    if ((x_actual F i).all (fun o => o.isSome)) ∧ (y_actual F i).isSome then
      if 10 < countSome (y_reciente F i) then
        let v : ℚ := if 0 < ss_tot_dia F i then 1 - ss_res_dia F p i / ss_tot_dia F i else 0
        { st1 with r2 := st1.r2.set i (some v) }
      else
        { st1 with r2 := st1.r2.set i (some 0) }
    else st1
  | none =>
    if 0 < i then
      let bh := col_means (k + 1) (st.betas.take i)
      let row := if bh.all (fun o => o.isSome) then bh else List.replicate (k + 1) (some 0)
      { st with betas := st.betas.set i row }
    else st

/-- One iteration of the rolling loop of `calcular_regresiones`: the
insufficient-data guard followed by the attempted fit. -/
def reg_paso (k : Nat) (fit : List (List ℚ) → List ℚ → Option (List ℚ))
    (F : List FRow) (st : Modelo) (i : Nat) : Modelo :=
  if 30 ≤ valid_count F i then reg_ajuste k fit F st i else st

/-- The initial state: `betas` and `r2` all null. -/
def reg_inicial (k n : Nat) : Modelo :=
  ⟨List.replicate n (List.replicate (k + 1) none), List.replicate n none⟩

/-- The function `calcular_regresiones` for one horizon with `k` factor columns:
the rolling loop `for i in range(90, len(df))`. -/
def calcular_regresiones (k : Nat) (fit : List (List ℚ) → List ℚ → Option (List ℚ))
    (F : List FRow) : Modelo :=
  (List.range' 90 (F.length - 90)).foldl (reg_paso k fit F) (reg_inicial k F.length)

/-- The state of the rolling loop just before iteration `i`. -/
def reg_hasta (k : Nat) (fit : List (List ℚ) → List ℚ → Option (List ℚ))
    (F : List FRow) (i : Nat) : Modelo :=
  (List.range' 90 (i - 90)).foldl (reg_paso k fit F) (reg_inicial k F.length)

/-- Follows the spec's words (§4.6): the number of window rows where
neither the factor vector nor the target is null, counted on the
original (not null-filled) frame. -/
def filas_validas_segun_spec (F : List FRow) (i : Nat) : Nat :=
  ((ventana_reg F i).filter
    (fun fr => fr.cop.isSome && fr.xs.all (fun o => o.isSome))).length

/-- The number of non-null entries of the original target inside the
trailing `[max(0, i-252), i)` window, per the spec's words on the R²
guard. -/
def objetivo_no_nulos (F : List FRow) (i : Nat) : Nat :=
  (((F.drop (i - 252)).take (i - (i - 252))).filterMap (fun fr => fr.cop)).length

/-- The capping line of `calcular_contribuciones`:
`max(-0.8 * cop_abs, min(0.8 * cop_abs, contrib_raw))` with Python
`min`/`max` semantics on possibly-NaN floats. -/
def cap_celda (cop beta factor : Option ℚ) : Option ℚ :=
  pymax (omul (some (-(4 / 5))) (oabs cop))
    (pymin (omul (some (4 / 5)) (oabs cop)) (omul beta factor))

/-- The stored (pre-`fillna`) capped contributions of one computed row:
`contrib_raw = beta * factor` clamped into `[-0.8 |COP|, 0.8 |COP|]`. -/
def caps_fila (k : Nat) (brow : List (Option ℚ)) (fr : FRow) : List (Option ℚ) :=
  (List.range k).map fun j =>
    cap_celda fr.cop ((brow.get? (j + 1)).getD none) ((fr.xs.get? j).getD none)

/-- One output row of `calcular_contribuciones` (columns `x_cols` then
`residual`), after the final frame-level `.fillna(0)`.  `k` is the number
of factor columns, `B` the `betas` frame of the horizon's model.  The
residual subtracts the pandas `.sum()` of the stored capped values, which
skips nulls (`filterMap id`). -/
def fila_contribuciones (k : Nat) (B : List (List (Option ℚ))) (i : Nat)
    (fr : FRow) : List ℚ :=
  match B[i]? with
  | some brow =>
    if 90 ≤ i ∧ brow.all (fun o => o.isSome) then
      (caps_fila k brow fr
        ++ [osub fr.cop (some ((caps_fila k brow fr).filterMap id).sum)]).map
        (fun o => o.getD 0)
    else List.replicate (k + 1) 0
  | none => List.replicate (k + 1) 0

/-- The function `calcular_contribuciones` for one horizon: factor contributions are
`beta * factor` clamped to `[-0.8 |COP|, 0.8 |COP|]` by Python
`max(..., min(..., ...))`, the residual is the target minus the sum of the
stored capped values, dates before index 90 or with a null coefficient
row are left null and the trailing `.fillna(0)` turns them into zeros. -/
def calcular_contribuciones (k : Nat) (F : List FRow)
    (B : List (List (Option ℚ))) : List (List ℚ) :=
  F.enum.map (fun p => fila_contribuciones k B p.1 p.2)

/-- The factor columns of the 5-day horizon, in source order. -/
def x_cols5 : List String :=
  ["DXY_L1", "LA_USD", "BZ_lag1", "Local5d"]

/-- Stable insertion of a named contribution into a list sorted by
descending absolute value (Python `list.sort(key=abs, reverse=True)` is
stable, so an incoming earlier element passes equal-magnitude ones). -/
def insertar_abs (p : String × ℚ) : List (String × ℚ) → List (String × ℚ)
  | [] => [p]
  | q :: l => if |q.2| ≤ |p.2| then p :: q :: l else q :: insertar_abs p l

/-- Sort by descending absolute contribution, stably. -/
def orden_abs : List (String × ℚ) → List (String × ℚ)
  | [] => []
  | p :: l => insertar_abs p (orden_abs l)

/-- The function `generar_texto_news`, for the latest day.  Here `fmt3`/`fmt1` are the
Python float formats `:.3f` and `:.1f`; `quant80` is pandas
`Series.quantile(0.8)`.  `cop_actual` is the 5-day `COP=X` value of the
latest day, `contrib` the latest 5-day contributions in `x_cols` order,
`residual` that row's residual, `r2_1d` the 1-day R² of the latest day
and `vix` the 5-day `^VIX` column.  The source's early return for an
empty frame is outside this slice; the latest day exists here. -/
def generar_texto_news (fmt3 fmt1 : ℚ → String) (quant80 : List ℚ → ℚ)
    (cop_actual : Option ℚ) (contrib : List (Option ℚ)) (residual : Option ℚ)
    (r2_1d : Option ℚ) (vix : List (Option ℚ)) : String :=
  let pares := (x_cols5.zip contrib).filterMap fun tc =>
    match tc.2 with
    | some c => if 1 / 1000 < |c| then some (tc.1, c) else none
    | none => none
  let ordenadas := orden_abs pares
  let movimiento := match cop_actual with
    | some c => fmt3 c
    | none => "desconocido"
  -- The source computes `verbo` from `r2_1d < 0.10` here but never
  -- interpolates it into any output string; it is dead code.
  let _verbo := if ltNaN r2_1d (some (1 / 10)) then "parece haber sido impulsado por" else "fue por"
  let linea1 := match ordenadas with
    | (fa, ca) :: (fb, cb) :: _ =>
      "El COP se movió " ++ movimiento ++ "%. Driver 1 " ++ fa ++ " " ++ fmt1 ca
        ++ "%, Driver 2 " ++ fb ++ " " ++ fmt1 cb ++ "%."
    | _ => "El COP se movió " ++ movimiento ++ "%."
  let residual_pct := match residual with
    | some r => |r|
    | none => 0
  let mov_abs := match cop_actual with
    | some c => |c|
    | none => 0
  let vix_data := vix.filterMap id
  let risk_on : Nat :=
    if 252 ≤ vix_data.length then
      -- `vix_data.loc[ultimo_dia]` exists in the dropna'd series exactly
      -- when the latest cell is non-null.
      match (vix.getLast?).getD none with
      | some v => if quant80 vix_data < v then 1 else 0
      | none => 0
    else 0
  let conds :=
    (if (3 / 10 : ℚ) * mov_abs < residual_pct then ["resto residual, probable ruido local."] else [])
      ++ (if risk_on == 1 then ["sesgo de riesgo global."] else [])
  let linea2 := String.intercalate " " conds
  -- `f"{linea_1}\n{linea_2}".strip()`: `linea_1` has no outer whitespace,
  -- so stripping only removes the newline when `linea_2` is empty.
  if linea2 = "" then linea1 else linea1 ++ "\n" ++ linea2

/-! Concrete inputs used by the witnesses and counterexamples below. -/

/-- A fit that always raises (models `sm.OLS(...).fit()` throwing, e.g. on
a degenerate window). -/
def fit_excepcion : List (List ℚ) → List ℚ → Option (List ℚ) :=
  fun _ _ => none

/-- The OLS fit on an all-zero window: the zero parameter vector is the
pseudo-inverse least-squares solution there. -/
def fit_cero : List (List ℚ) → List ℚ → Option (List ℚ) :=
  fun _ _ => some [0, 0, 0, 0]

/-- A frame of 91 rows, every cell null (three factor columns). -/
def cuadro_nulos : List FRow :=
  List.replicate 91 ⟨none, [none, none, none]⟩

/-- A frame of 91 rows: row 0 has target 5 with first factor 1, rows 1–89 have a
null target, row 90 has target 1 with first factor 1. -/
def cuadro_r2 : List FRow :=
  ⟨some 5, [some 1, some 0, some 0]⟩
    :: (List.replicate 89 ⟨none, [some 0, some 0, some 0]⟩)
    ++ [⟨some 1, [some 1, some 0, some 0]⟩]

/-- The exact OLS solution on the null-filled window of `cuadro_r2` at
`i = 90`: `y = [5, 0, …, 0]` against a constant column and `x₁ = [1, 0, …, 0]`
is fit exactly by intercept 0 and slope 5; the all-zero columns get 0. -/
def ajuste_r2 : List (List ℚ) → List ℚ → Option (List ℚ) :=
  fun _ _ => some [0, 5, 0, 0]

/-- A column whose trailing 90-window at index 89 holds exactly 10
non-null values with mean 0, sample variance 4 and last value 4. -/
def col_escasa : List (Option ℚ) :=
  (List.replicate 80 none)
    ++ [some (-4), some 1, some (-1), some 1, some (-1),
        some 0, some 0, some 0, some 0, some 4]

/-- A square-root oracle that is exact at the only point where the
counterexample evaluates it (`4 ↦ 2`). -/
def raiz_testigo : ℚ → ℚ :=
  fun q => if q = 4 then 2 else 0

/-- A frame of 91 rows; the last has target 1 and a large first factor value. -/
def cuadro_capping : List FRow :=
  List.replicate 90 ⟨none, []⟩ ++ [⟨some 1, [some 100, some 0, some 0]⟩]

/-- Betas defined only at row 90: intercept 0, first slope 1. -/
def betas_capping : List (List (Option ℚ)) :=
  List.replicate 90 ([] : List (Option ℚ)) ++ [[some 0, some 1, some 0, some 0]]

/-- One row with target 1 and zero factors. -/
def cuadro_solo : List FRow :=
  [⟨some 1, [some 0, some 0, some 0]⟩]

/-- A single all-null coefficient row. -/
def betas_nulas : List (List (Option ℚ)) :=
  [[none, none, none, none]]

/-! Shared lemmas. -/

/-- After `fillna(0)` every row of the design matrix and the target is
counted as valid by the mask of `calcular_regresiones`. -/
theorem fila_valida_true (fr : FRow) : fila_valida fr = true := by
  simp only [fila_valida, fila_X, val_y, fillna0, Bool.and_eq_true, List.all_cons,
    Option.isSome_some, Bool.true_and, List.all_eq_true]
  exact ⟨fun o ho => by rcases List.mem_map.mp ho with ⟨a, -, rfl⟩; rfl, trivial⟩

/-- The 90-row window mask sums to 90 at every loop index. -/
theorem valid_count_lleno (F : List FRow) (i : Nat) (h90 : 90 ≤ i)
    (hn : i ≤ F.length) : valid_count F i = 90 := by
  unfold valid_count ventana_reg
  rw [List.filter_eq_self.mpr (fun a _ => fila_valida_true a)]
  rw [List.length_take, List.length_drop]
  omega

/-- Applying `reg_paso` at index `i` leaves every other row of `betas` and entry of
`r2` unchanged. -/
theorem reg_paso_otro (k : Nat) (fit : List (List ℚ) → List ℚ → Option (List ℚ))
    (F : List FRow) (st : Modelo) (i j : Nat) (h : i ≠ j) :
    ((reg_paso k fit F st i).betas[j]? = st.betas[j]?)
    ∧ ((reg_paso k fit F st i).r2[j]? = st.r2[j]?) := by
  unfold reg_paso reg_ajuste
  constructor <;>
    · repeat' split
      all_goals simp [List.getElem?_set_ne h]

/-- Folding the loop over indices that avoid `j` leaves row `j` unchanged. -/
theorem reg_fold_otro (k : Nat) (fit : List (List ℚ) → List ℚ → Option (List ℚ))
    (F : List FRow) : ∀ (L : List Nat) (st : Modelo) (j : Nat),
    (∀ i ∈ L, i ≠ j) →
    ((L.foldl (reg_paso k fit F) st).betas[j]? = st.betas[j]?)
    ∧ ((L.foldl (reg_paso k fit F) st).r2[j]? = st.r2[j]?)
  | [], st, j, _ => ⟨rfl, rfl⟩
  | i :: L, st, j, h => by
    have hi : i ≠ j := h i (by simp)
    have hL : ∀ m ∈ L, m ≠ j := fun m hm => h m (by simp [hm])
    have hrec := reg_fold_otro k fit F L (reg_paso k fit F st i) j hL
    have hp := reg_paso_otro k fit F st i j hi
    rw [List.foldl_cons]
    exact ⟨hrec.1.trans hp.1, hrec.2.trans hp.2⟩

/-- Row `i` of the final model is row `i` of the single loop iteration at
`i`, started from the state the loop had reached just before `i`. -/
theorem reg_descompone (k : Nat) (fit : List (List ℚ) → List ℚ → Option (List ℚ))
    (F : List FRow) (i : Nat) (h90 : 90 ≤ i) (hn : i < F.length) :
    ((calcular_regresiones k fit F).betas[i]?
      = (reg_paso k fit F (reg_hasta k fit F i) i).betas[i]?)
    ∧ ((calcular_regresiones k fit F).r2[i]?
      = (reg_paso k fit F (reg_hasta k fit F i) i).r2[i]?) := by
  unfold calcular_regresiones reg_hasta
  have hsplit : List.range' 90 (F.length - 90)
      = List.range' 90 (i - 90) ++ i :: List.range' (i + 1) (F.length - i - 1) := by
    have h2 : List.range' i (F.length - i) = i :: List.range' (i + 1) (F.length - i - 1) := by
      obtain ⟨m, hm⟩ : ∃ m, F.length - i = m + 1 := ⟨F.length - i - 1, by omega⟩
      rw [hm, List.range'_succ]
      rfl
    have h1 := List.range'_append 90 (i - 90) (F.length - i) 1
    rw [show 90 + 1 * (i - 90) = i from by omega] at h1
    rw [show (F.length - i) + (i - 90) = F.length - 90 from by omega, h2] at h1
    exact h1.symm
  rw [hsplit, List.foldl_append, List.foldl_cons]
  have hpost : ∀ m ∈ List.range' (i + 1) (F.length - i - 1), m ≠ i := by
    intro m hm
    rcases List.mem_range'.mp hm with ⟨a, -, rfl⟩
    omega
  exact reg_fold_otro k fit F _ _ i hpost

/-- The initial `betas` and `r2` are null everywhere. -/
theorem reg_inicial_nulo (k n j : Nat) (hj : j < n) :
    (reg_inicial k n).betas[j]? = some (List.replicate (k + 1) none)
    ∧ (reg_inicial k n).r2[j]? = some none := by
  unfold reg_inicial
  simp [List.getElem?_replicate, hj]

/-! Claim theorems. -/

/-- C3.  The 5-day return branch of `calcular_retornos` does NOT compute
`∏(1 + r) − 1`: the series was already incremented once (`1 + variables`)
and the window lambda increments again, so a constant 0.01 series yields
`(2.01)^5 − 1` instead of `(1.01)^5 − 1`; moreover the default
`min_periods` of `rolling(5)` nulls every window that has any null (the
`≥ 3 non-null` / `else 0` branch of the lambda is unreachable), so a
2-non-null window yields null, not 0, and a 4-non-null window yields
null, not the compounded product. -/
theorem retornos_5d_divergencia :
    (calcular_retornos_5d (List.replicate 10 (some (1 / 100))))[5]?
        = some (some ((201 / 100 : ℚ) ^ 5 - 1))
    ∧ retorno_5d_segun_spec (List.replicate 5 (some (1 / 100))) = (101 / 100 : ℚ) ^ 5 - 1
    ∧ ((201 / 100 : ℚ) ^ 5 - 1 ≠ (101 / 100 : ℚ) ^ 5 - 1)
    ∧ (calcular_retornos_5d
        [some (1 / 100), none, none, none, some (1 / 100), some (1 / 100)])[5]?
        = some none
    ∧ retorno_5d_segun_spec [none, none, none, some (1 / 100), some (1 / 100)] = 0
    ∧ (calcular_retornos_5d
        [some (1 / 100), none, some (1 / 100), some (1 / 100), some (1 / 100),
          some (1 / 100)])[4]?
        = some none := by
  decide!

/-- C4.  The standardizer returns 0 at a window with exactly 10 non-null
observations, variance 4 and last value 4, where the spec's rule
`(value − mean) / std` demands 2: the default `min_periods` of
`rolling(90)` nulls every window with fewer than 90 non-null values (the
`< 10` guards inside `estandarizar_ventana` are unreachable) and the
frame-level `fillna(0)` then writes 0. -/
theorem estandarizar_divergencia :
    (estandarizar_col raiz_testigo col_escasa)[89]? = some 0
    ∧ countSome (ventana_fin 90 col_escasa 89) = 10
    ∧ estandarizar_segun_spec raiz_testigo (ventana_fin 90 col_escasa 89) = 2
    ∧ raiz_testigo (var_muestral ((ventana_fin 90 col_escasa 89).filterMap id)) ^ 2
        = var_muestral ((ventana_fin 90 col_escasa 89).filterMap id)
    ∧ (0 : ℚ) ≠ 2 := by
  decide!

/-- C5.  At `i = 90` on a frame whose original window has 0 valid
(non-null factor-and-target) rows — far below the 30-row threshold — the
mask of `calcular_regresiones` still counts all 90 null-filled rows as
valid and an OLS fit is attempted and stored, instead of skipping the
regression and falling back to the (here nonexistent) prior-mean
coefficients. -/
theorem regresion_umbral_divergencia :
    filas_validas_segun_spec cuadro_nulos 90 = 0
    ∧ valid_count cuadro_nulos 90 = 90
    ∧ (calcular_regresiones 3 fit_cero cuadro_nulos).betas[90]?
        = some [some 0, some 0, some 0, some 0] := by
  decide!

/-- C1 counterexample.  On a date whose coefficient row is null (here the
only date, index 0), every contribution and the residual are 0, so
`sum(contributions) + residual = 0 ≠ target`: the claimed identity fails
for such dates. -/
theorem contribuciones_fecha_sin_betas_contraejemplo :
    calcular_contribuciones 3 cuadro_solo betas_nulas = [[0, 0, 0, 0]]
    ∧ (cuadro_solo.map FRow.cop)[0]? = some (some 1)
    ∧ ([(0 : ℚ), 0, 0, 0].sum ≠ 1) := by
  decide!

/-- C6 counterexample.  When the very first attempted fit raises and no
prior coefficient row exists, `calcular_regresiones` does not leave the
row undefined: the `else 0` branch writes an all-zero, fully defined
coefficient row (the R² does stay undefined). -/
theorem regresion_excepcion_sin_previos_contraejemplo :
    (calcular_regresiones 3 fit_excepcion cuadro_nulos).betas[90]?
        = some (List.replicate 4 (some 0))
    ∧ (List.replicate 4 (some (0 : ℚ))).all (fun o => o.isSome) = true
    ∧ ((calcular_regresiones 3 fit_excepcion cuadro_nulos).betas.take 90).all
        (fun r => r.all (fun o => o.isNone)) = true
    ∧ (calcular_regresiones 3 fit_excepcion cuadro_nulos).r2[90]? = some none := by
  decide!

/-- Comparison `ltNaN` with a null operand is false. -/
theorem ltNaN_none_left (b : Option ℚ) : ltNaN none b = false := by
  cases b <;> rfl

/-- The Python clamp `max(-q, min(q, raw))` always returns a value between
`-q` and `q` when `0 ≤ q`, even when `raw` is NaN. -/
theorem pymax_pymin_some_bound (q : ℚ) (hq : 0 ≤ q) (raw : Option ℚ) :
    ∃ v, pymax (some (-q)) (pymin (some q) raw) = some v ∧ -q ≤ v ∧ v ≤ q := by
  rcases raw with _ | r
  · have h1 : pymin (some q) none = some q := by
      unfold pymin
      rw [ltNaN_none_left]
      rfl
    rw [h1]
    unfold pymax
    rw [show ltNaN (some (-q)) (some q) = decide (-q < q) from rfl]
    rcases hd : decide (-q < q) with _ | _
    · rw [if_neg (by simp)]
      exact ⟨-q, rfl, le_rfl, by linarith⟩
    · rw [if_pos rfl]
      exact ⟨q, rfl, by linarith, le_rfl⟩
  · have h1 : pymin (some q) (some r) = some (if r < q then r else q) := by
      unfold pymin
      rw [show ltNaN (some r) (some q) = decide (r < q) from rfl]
      by_cases h : r < q
      · rw [if_pos (by simpa using h), if_pos h]
      · rw [if_neg (by simpa using h), if_neg h]
    rw [h1]
    unfold pymax
    rw [show ltNaN (some (-q)) (some (if r < q then r else q))
        = decide (-q < if r < q then r else q) from rfl]
    by_cases h2 : -q < (if r < q then r else q)
    · rw [if_pos (by simpa using h2)]
      by_cases h3 : r < q
      · rw [if_pos h3]
        rw [if_pos h3] at h2
        exact ⟨r, rfl, by linarith, by linarith⟩
      · rw [if_neg h3]
        exact ⟨q, rfl, by linarith, le_rfl⟩
    · rw [if_neg (by simpa using h2)]
      exact ⟨-q, rfl, le_rfl, by linarith⟩

/-- The capping line, on a non-null target, always stores a non-null value
within `0.8 |c|` of zero. -/
theorem cap_celda_caracteriza (c : ℚ) (beta factor : Option ℚ) :
    ∃ v, cap_celda (some c) beta factor = some v ∧ |v| ≤ 4 / 5 * |c| := by
  have hq : (0 : ℚ) ≤ 4 / 5 * |c| := by positivity
  have h0 : cap_celda (some c) beta factor
      = pymax (some (-(4 / 5 * |c|))) (pymin (some (4 / 5 * |c|)) (omul beta factor)) := by
    unfold cap_celda oabs
    rw [show Option.map (fun x : ℚ => |x|) (some c) = some |c| from rfl]
    rw [show omul (some (-(4 / 5))) (some |c|) = some (-(4 / 5) * |c|) from rfl]
    rw [show omul (some (4 / 5)) (some |c|) = some (4 / 5 * |c|) from rfl]
    rw [neg_mul]
  rw [h0]
  rcases pymax_pymin_some_bound (4 / 5 * |c|) hq (omul beta factor) with ⟨v, hv, h1, h2⟩
  exact ⟨v, hv, abs_le.mpr ⟨by linarith, h2⟩⟩

/-- The clamp `cap_celda` always yields a non-null value when the target
is non-null, even for a null raw contribution. -/
theorem cap_isSome (c : ℚ) (beta factor : Option ℚ) :
    (cap_celda (some c) beta factor).isSome = true := by
  rcases cap_celda_caracteriza c beta factor with ⟨v, hv, -⟩
  rw [hv]
  rfl

/-- The clamp keeps every stored contribution within `0.8 |c|` in
magnitude. -/
theorem cap_abs_le (c : ℚ) (beta factor : Option ℚ) :
    |(cap_celda (some c) beta factor).getD 0| ≤ 4 / 5 * |c| := by
  rcases cap_celda_caracteriza c beta factor with ⟨v, hv, hb⟩
  rw [hv]
  exact hb

/-- With a zero target the clamp collapses every contribution to zero. -/
theorem cap_zero (beta factor : Option ℚ) :
    cap_celda (some (0 : ℚ)) beta factor = some 0 := by
  rcases cap_celda_caracteriza 0 beta factor with ⟨v, hv, hb⟩
  simp only [abs_zero, mul_zero] at hb
  have hv0 : v = 0 := abs_eq_zero.mp (le_antisymm hb (abs_nonneg v))
  rw [hv, hv0]

/-- When every cell is non-null, `filterMap id` agrees with reading the
cells off. -/
theorem filterMap_id_eq_map_getD (l : List (Option ℚ))
    (h : ∀ x ∈ l, x.isSome = true) :
    l.filterMap id = l.map (fun o => o.getD 0) := by
  induction l with
  | nil => rfl
  | cons a t ih =>
    rcases a with _ | v
    · exact absurd (h none (by simp)) (by simp)
    · simp only [List.filterMap_cons, List.map_cons, id]
      rw [ih (fun x hx => h x (by simp [hx]))]
      rfl

/-- Computing `filterMap id` on a replicated non-null cell. -/
theorem filterMap_id_replicate (n : Nat) (a : ℚ) :
    (List.replicate n (some a)).filterMap id = List.replicate n a := by
  induction n with
  | zero => rfl
  | succ m ih => simp only [List.replicate_succ, List.filterMap_cons, id, ih]

/-- The function `calcular_contribuciones` reads row `i` off the frame. -/
theorem contribuciones_fila (k : Nat) (F : List FRow)
    (B : List (List (Option ℚ))) (i : Nat) (fr : FRow) (hf : F[i]? = some fr) :
    (calcular_contribuciones k F B)[i]? = some (fila_contribuciones k B i fr) := by
  unfold calcular_contribuciones
  rw [List.getElem?_map, List.getElem?_enum, hf]
  rfl

/-- Every cell of the stored capped row is non-null when the target is. -/
theorem caps_fila_isSome (k : Nat) (brow : List (Option ℚ)) (fr : FRow) (c : ℚ)
    (hc : fr.cop = some c) :
    ∀ x ∈ caps_fila k brow fr, x.isSome = true := by
  intro x hx
  rcases List.mem_map.mp hx with ⟨j, -, rfl⟩
  rw [hc]
  exact cap_isSome c _ _

/-- C1 (amended).  For every date with index at least 90 and a fully
defined coefficient row, the stored capped contributions and residual of
`calcular_contribuciones` sum exactly to the day's target value (the
`COP=X` cell); the claim's unrestricted version fails on earlier or
undefined dates, whose rows are zero-filled. -/
theorem contribuciones_suma_residual_objetivo (k : Nat) (F : List FRow)
    (B : List (List (Option ℚ))) (i : Nat) (fr : FRow) (brow : List (Option ℚ)) (c : ℚ)
    (hf : F[i]? = some fr) (hc : fr.cop = some c) (hb : B[i]? = some brow)
    (h90 : 90 ≤ i) (hall : brow.all (fun o => o.isSome) = true) :
    ∃ crow, (calcular_contribuciones k F B)[i]? = some crow ∧ crow.sum = c := by
  refine ⟨fila_contribuciones k B i fr, contribuciones_fila k F B i fr hf, ?_⟩
  unfold fila_contribuciones
  rw [hb]
  simp only [if_pos (And.intro h90 hall)]
  rw [List.map_append, List.sum_append,
    filterMap_id_eq_map_getD _ (caps_fila_isSome k brow fr c hc), hc]
  simp [osub]

/-- C1 witness: a concrete frame whose row 90 has target 1, a defined
coefficient row, and a capped contribution. -/
theorem contribuciones_suma_residual_objetivo_testigo :
    cuadro_capping[90]? = some (FRow.mk (some 1) [some 100, some 0, some 0])
    ∧ betas_capping[90]? = some [some 0, some 1, some 0, some 0]
    ∧ (∃ crow, (calcular_contribuciones 3 cuadro_capping betas_capping)[90]? = some crow
        ∧ crow.sum = 1) :=
  ⟨by decide!, by decide!,
    contribuciones_suma_residual_objetivo 3 cuadro_capping betas_capping 90
      (FRow.mk (some 1) [some 100, some 0, some 0]) [some 0, some 1, some 0, some 0] 1
      (by decide!) rfl (by decide!) (by omega) rfl⟩

/-- C2.  Every factor contribution stored by `calcular_contribuciones`
satisfies `|contribution| <= 0.8 |target|` exactly (hence a fortiori with
any nonnegative tolerance added), and on a date whose target is exactly 0
the whole output row, contributions and residual alike, is zero. -/
theorem contribuciones_cota_y_objetivo_cero (k : Nat) (F : List FRow)
    (B : List (List (Option ℚ))) (i : Nat) (fr : FRow) (c : ℚ) (crow : List ℚ)
    (hf : F[i]? = some fr) (hc : fr.cop = some c)
    (hrow : (calcular_contribuciones k F B)[i]? = some crow) :
    (∀ j, j < k → |crow.getD j 0| ≤ 4 / 5 * |c|)
    ∧ (c = 0 → crow = List.replicate (k + 1) 0) := by
  have hq : (0 : ℚ) ≤ 4 / 5 * |c| := by positivity
  have hcrow : crow = fila_contribuciones k B i fr := by
    have h2 := contribuciones_fila k F B i fr hf
    rw [hrow] at h2
    exact Option.some_inj.mp h2
  subst hcrow
  unfold fila_contribuciones
  rcases hB : B[i]? with _ | brow
  · simp only [hB]
    refine ⟨fun j hj => ?_, fun _ => trivial⟩
    rw [List.getD_eq_getElem?_getD, List.getElem?_replicate,
      if_pos (show j < k + 1 by omega)]
    simpa using hq
  · simp only [hB]
    by_cases hcond : 90 ≤ i ∧ brow.all (fun o => o.isSome) = true
    · rw [if_pos hcond]
      refine ⟨fun j hj => ?_, fun hc0 => ?_⟩
      · have hjlen : j < (caps_fila k brow fr).length := by
          simpa [caps_fila] using hj
        rw [List.getD_eq_getElem?_getD, List.getElem?_map,
          List.getElem?_append_left hjlen]
        unfold caps_fila
        rw [List.getElem?_map, List.getElem?_range hj]
        simp only [Option.map, Option.getD_some]
        rw [hc]
        exact cap_abs_le c _ _
      · subst hc0
        have hcaps0 : caps_fila k brow fr = List.replicate k (some (0 : ℚ)) := by
          rw [List.eq_replicate_iff]
          refine ⟨by simp [caps_fila], fun b hb => ?_⟩
          rcases List.mem_map.mp hb with ⟨j, -, rfl⟩
          rw [hc]
          exact cap_zero _ _
        rw [hcaps0, hc]
        rw [filterMap_id_replicate]
        simp only [List.sum_replicate, smul_zero, osub, sub_zero, List.map_append,
          List.map_replicate, Option.getD_some, List.map_cons, List.map_nil]
        rw [List.replicate_succ']
    · rw [if_neg hcond]
      refine ⟨fun j hj => ?_, fun _ => rfl⟩
      rw [List.getD_eq_getElem?_getD, List.getElem?_replicate,
        if_pos (show j < k + 1 by omega)]
      simpa using hq

/-- C2 witness: on the concrete capped row the first contribution sits on
the 0.8-bound exactly, and the zero-target clause is vacuously applied. -/
theorem contribuciones_cota_y_objetivo_cero_testigo :
    cuadro_capping[90]? = some (FRow.mk (some 1) [some 100, some 0, some 0])
    ∧ (calcular_contribuciones 3 cuadro_capping betas_capping)[90]?
        = some [4 / 5, 0, 0, 1 / 5]
    ∧ ((∀ j, j < 3 → |([(4 : ℚ) / 5, 0, 0, 1 / 5]).getD j 0| ≤ 4 / 5 * |(1 : ℚ)|)
        ∧ ((1 : ℚ) = 0 → [(4 : ℚ) / 5, 0, 0, 1 / 5] = List.replicate (3 + 1) 0)) :=
  ⟨by decide!, by decide!,
    contribuciones_cota_y_objetivo_cero 3 cuadro_capping betas_capping 90
      (FRow.mk (some 1) [some 100, some 0, some 0]) 1 [4 / 5, 0, 0, 1 / 5]
      (by decide!) rfl (by decide!)⟩

/-- The `X` row read for the current day is never null. -/
theorem fila_X_todo_some (fr : FRow) :
    (fila_X fr).all (fun o => o.isSome) = true := by
  simp only [fila_X, List.all_cons, Option.isSome_some, Bool.true_and, List.all_eq_true]
  intro o ho
  rcases List.mem_map.mp ho with ⟨a, -, rfl⟩
  rfl

/-- Stepping with `reg_paso` preserves the shapes of `betas` and `r2`. -/
theorem reg_paso_longitud (k : Nat) (fit : List (List ℚ) → List ℚ → Option (List ℚ))
    (F : List FRow) (st : Modelo) (i : Nat) :
    (reg_paso k fit F st i).betas.length = st.betas.length
    ∧ (reg_paso k fit F st i).r2.length = st.r2.length := by
  unfold reg_paso reg_ajuste
  constructor <;>
    · repeat' split
      all_goals simp [List.length_set]

/-- The loop preserves the shapes of `betas` and `r2`. -/
theorem reg_fold_longitud (k : Nat) (fit : List (List ℚ) → List ℚ → Option (List ℚ))
    (F : List FRow) : ∀ (L : List Nat) (st : Modelo),
    ((L.foldl (reg_paso k fit F) st).betas.length = st.betas.length)
    ∧ ((L.foldl (reg_paso k fit F) st).r2.length = st.r2.length)
  | [], _ => ⟨rfl, rfl⟩
  | i :: L, st => by
    have h1 := reg_paso_longitud k fit F st i
    have h2 := reg_fold_longitud k fit F L (reg_paso k fit F st i)
    rw [List.foldl_cons]
    exact ⟨h2.1.trans h1.1, h2.2.trans h1.2⟩

/-- The loop state just before iteration `i` still has one row per date. -/
theorem reg_hasta_longitud (k : Nat) (fit : List (List ℚ) → List ℚ → Option (List ℚ))
    (F : List FRow) (i : Nat) :
    (reg_hasta k fit F i).betas.length = F.length
    ∧ (reg_hasta k fit F i).r2.length = F.length := by
  unfold reg_hasta
  have h := reg_fold_longitud k fit F (List.range' 90 (i - 90)) (reg_inicial k F.length)
  simpa [reg_inicial] using h

/-- Iterations before `i` never touch row `i`. -/
theorem reg_hasta_intacto (k : Nat) (fit : List (List ℚ) → List ℚ → Option (List ℚ))
    (F : List FRow) (i : Nat) (h90 : 90 ≤ i) :
    (reg_hasta k fit F i).betas[i]? = (reg_inicial k F.length).betas[i]?
    ∧ (reg_hasta k fit F i).r2[i]? = (reg_inicial k F.length).r2[i]? := by
  unfold reg_hasta
  apply reg_fold_otro
  intro m hm
  rcases List.mem_range'.mp hm with ⟨a, ha, rfl⟩
  omega

/-- Because `X` and `y` were null-filled, the insufficient-data guard of
the loop body always passes and the fit branch is entered. -/
theorem reg_paso_eq_ajuste (k : Nat) (fit : List (List ℚ) → List ℚ → Option (List ℚ))
    (F : List FRow) (st : Modelo) (i : Nat) (h90 : 90 ≤ i) (hn : i ≤ F.length) :
    reg_paso k fit F st i = reg_ajuste k fit F st i := by
  unfold reg_paso
  rw [valid_count_lleno F i h90 hn]
  rw [if_pos (by omega)]

/-- The number of (null-filled) target observations the R² guard counts. -/
theorem y_reciente_cuenta (F : List FRow) (i : Nat) (hn : i ≤ F.length) :
    countSome (y_reciente F i) = min i 252 := by
  unfold countSome y_reciente
  have hall : ∀ l : List FRow,
      (l.map val_y).filterMap id = l.map (fun fr => fr.cop.getD 0) := by
    intro l
    induction l with
    | nil => rfl
    | cons a t ih => simp only [List.map_cons, List.filterMap_cons, val_y, fillna0, id, ih]
  rw [hall, List.length_map, List.length_take, List.length_drop]
  omega

/-- C10.  In `calcular_regresiones` the design matrix and target are
null-filled before the loop, so at every date index `i ≥ 90` the window's
valid-row mask counts all 90 rows as valid; hence the fewer-than-30-valid
guard never fires and the loop body always proceeds to the attempted OLS
fit, whatever the original nulls were. -/
theorem mascara_valida_siempre_llena (k : Nat)
    (fit : List (List ℚ) → List ℚ → Option (List ℚ)) (F : List FRow)
    (st : Modelo) (i : Nat) (h90 : 90 ≤ i) (hn : i ≤ F.length) :
    valid_count F i = 90 ∧ 30 ≤ valid_count F i
    ∧ reg_paso k fit F st i = reg_ajuste k fit F st i := by
  have hv := valid_count_lleno F i h90 hn
  exact ⟨hv, by omega, reg_paso_eq_ajuste k fit F st i h90 hn⟩

/-- C10 witness at a concrete all-null frame and index 90. -/
theorem mascara_valida_siempre_llena_testigo :
    valid_count cuadro_nulos 90 = 90 ∧ 30 ≤ valid_count cuadro_nulos 90
    ∧ reg_paso 3 fit_cero cuadro_nulos (reg_inicial 3 91) 90
      = reg_ajuste 3 fit_cero cuadro_nulos (reg_inicial 3 91) 90 :=
  mascara_valida_siempre_llena 3 fit_cero cuadro_nulos (reg_inicial 3 91) 90
    (by omega) (by decide!)

/-- C6 (amended).  When the fit at date `i` raises, `calcular_regresiones`
catches the exception (the embedded function is total) and writes a
coefficient row: the column-wise mean of the previously computed rows when
every column has a prior value, and otherwise — including when no prior
estimate exists at all — an all-zero row, not an undefined one; the R² of
that date stays undefined. -/
theorem regresion_excepcion_fallback (k : Nat)
    (fit : List (List ℚ) → List ℚ → Option (List ℚ)) (F : List FRow) (i : Nat)
    (h90 : 90 ≤ i) (hn : i < F.length)
    (hfit : fit (ventana_X F i) (ventana_y F i) = none) :
    ((calcular_regresiones k fit F).betas[i]?
      = some (
        if (col_means (k + 1) ((reg_hasta k fit F i).betas.take i)).all (fun o => o.isSome)
        then col_means (k + 1) ((reg_hasta k fit F i).betas.take i)
        else List.replicate (k + 1) (some 0)))
    ∧ (calcular_regresiones k fit F).r2[i]? = some none := by
  have hdes := reg_descompone k fit F i h90 hn
  have hlen := reg_hasta_longitud k fit F i
  have hpaso := reg_paso_eq_ajuste k fit F (reg_hasta k fit F i) i h90 (by omega)
  constructor
  · rw [hdes.1, hpaso]
    unfold reg_ajuste
    rw [hfit]
    rw [if_pos (show 0 < i by omega)]
    exact List.getElem?_set_eq_of_lt _ (by rw [hlen.1]; omega)
  · rw [hdes.2, hpaso]
    unfold reg_ajuste
    rw [hfit]
    rw [if_pos (show 0 < i by omega)]
    show (reg_hasta k fit F i).r2[i]? = some none
    rw [(reg_hasta_intacto k fit F i h90).2]
    exact (reg_inicial_nulo k F.length i hn).2

/-- C6 witness: the first fit fails with no prior estimate; the theorem
applies and the fallback row is the concrete all-zero row. -/
theorem regresion_excepcion_fallback_testigo :
    fit_excepcion (ventana_X cuadro_nulos 90) (ventana_y cuadro_nulos 90) = none
    ∧ ((calcular_regresiones 3 fit_excepcion cuadro_nulos).betas[90]?
      = some (
        if (col_means 4 ((reg_hasta 3 fit_excepcion cuadro_nulos 90).betas.take 90)).all
            (fun o => o.isSome)
        then col_means 4 ((reg_hasta 3 fit_excepcion cuadro_nulos 90).betas.take 90)
        else List.replicate 4 (some 0)))
    ∧ (calcular_regresiones 3 fit_excepcion cuadro_nulos).r2[90]? = some none :=
  ⟨rfl,
    (regresion_excepcion_fallback 3 fit_excepcion cuadro_nulos 90 (by omega)
      (by decide!) rfl).1,
    (regresion_excepcion_fallback 3 fit_excepcion cuadro_nulos 90 (by omega)
      (by decide!) rfl).2⟩

/-- C7 counterexample.  At `i = 90` of `cuadro_r2` the original target has
exactly 1 non-null value in the trailing `[max(0, i-252), i)` window —
far below the claimed 10 required — yet the code computes the R² formula
and stores `-4895/289 ≠ 0` rather than the claimed `0.0`, because the
guard counts the null-filled target. -/
theorem r2_guardia_contraejemplo :
    objetivo_no_nulos cuadro_r2 90 = 1
    ∧ (calcular_regresiones 3 ajuste_r2 cuadro_r2).r2[90]?
        = some (some ((-4895 : ℚ) / 289))
    ∧ ((-4895 : ℚ) / 289 ≠ 0) := by
  decide!

/-- C7 (amended).  Whenever the fit at date `i ≥ 90` succeeds, the stored
current-day R² is `1 − ss_res/ss_tot` (with `0` substituted when the
total sum of squares is zero), where both squares are computed from the
null-filled current row and the null-filled trailing-252 target window;
the guard's observation count always equals `min i 252 ≥ 90`, so the
fewer-than-required branch (which would store `0.0`) is unreachable. -/
theorem r2_dia_formula (k : Nat)
    (fit : List (List ℚ) → List ℚ → Option (List ℚ)) (F : List FRow) (i : Nat)
    (p : List ℚ) (h90 : 90 ≤ i) (hn : i < F.length)
    (hfit : fit (ventana_X F i) (ventana_y F i) = some p) :
    (calcular_regresiones k fit F).r2[i]?
      = some (some (if 0 < ss_tot_dia F i
          then 1 - ss_res_dia F p i / ss_tot_dia F i else 0))
    ∧ countSome (y_reciente F i) = min i 252 := by
  have hcount := y_reciente_cuenta F i (by omega)
  refine ⟨?_, hcount⟩
  have hdes := reg_descompone k fit F i h90 hn
  have hlen := reg_hasta_longitud k fit F i
  have hpaso := reg_paso_eq_ajuste k fit F (reg_hasta k fit F i) i h90 (by omega)
  obtain ⟨fr, hfr⟩ : ∃ fr, F.get? i = some fr := by
    rw [List.get?_eq_getElem?]
    exact ⟨F[i], List.getElem?_eq_getElem hn⟩
  have hx : (x_actual F i).all (fun o => o.isSome) = true := by
    unfold x_actual
    rw [hfr]
    exact fila_X_todo_some fr
  have hy : (y_actual F i).isSome = true := by
    unfold y_actual
    rw [hfr]
    rfl
  rw [hdes.2, hpaso]
  unfold reg_ajuste
  simp only [hfit]
  rw [if_pos (And.intro hx hy)]
  rw [if_pos (show 10 < countSome (y_reciente F i) by rw [hcount]; omega)]
  show ((reg_hasta k fit F i).r2.set i
      (some (if 0 < ss_tot_dia F i then 1 - ss_res_dia F p i / ss_tot_dia F i else 0)))[i]?
    = some (some (if 0 < ss_tot_dia F i then 1 - ss_res_dia F p i / ss_tot_dia F i else 0))
  exact List.getElem?_set_eq_of_lt _ (by rw [hlen.2]; omega)

/-- C7 witness: the formula theorem applied to the concrete frame. -/
theorem r2_dia_formula_testigo :
    ajuste_r2 (ventana_X cuadro_r2 90) (ventana_y cuadro_r2 90) = some [0, 5, 0, 0]
    ∧ (calcular_regresiones 3 ajuste_r2 cuadro_r2).r2[90]?
        = some (some (if 0 < ss_tot_dia cuadro_r2 90
            then 1 - ss_res_dia cuadro_r2 [0, 5, 0, 0] 90 / ss_tot_dia cuadro_r2 90
            else 0))
    ∧ countSome (y_reciente cuadro_r2 90) = min 90 252 :=
  ⟨rfl,
    (r2_dia_formula 3 ajuste_r2 cuadro_r2 90 [0, 5, 0, 0] (by omega) (by decide!) rfl).1,
    (r2_dia_formula 3 ajuste_r2 cuadro_r2 90 [0, 5, 0, 0] (by omega) (by decide!) rfl).2⟩

/-- C8.  `elegir_riesgo_local` is a pure function of the standardized
5-day matrix with a closed-form selection rule: with both candidates
present it returns ICOL exactly when ICOL's stability is strictly higher
(so GXG, the first-encountered candidate, wins exact ties); with one
candidate present it returns that candidate; with none it returns the
fixed default GXG.  In particular the same input always yields the same
choice, for any stability oracle. -/
theorem elegir_riesgo_local_determinista (corr90 : List ℚ → List ℚ → List (Option ℚ))
    (sd : List (Option ℚ) → ℚ) (cols : List String) (colv : String → List ℚ) :
    elegir_riesgo_local corr90 sd cols colv =
      (if cols.contains "GXG" then
        (if cols.contains "ICOL"
            ∧ 1 / (sd (corr90 (colv "GXG") (colv "COP=X")) + 1 / 1000000)
              < 1 / (sd (corr90 (colv "ICOL") (colv "COP=X")) + 1 / 1000000)
          then "ICOL" else "GXG")
      else if cols.contains "ICOL" then "ICOL" else "GXG") := by
  unfold elegir_riesgo_local max_llave
  by_cases h1 : cols.contains "GXG" <;> by_cases h2 : cols.contains "ICOL" <;>
    simp only [List.filter_cons, List.filter_nil, h1, h2, if_true,
      Bool.false_eq_true, if_false, List.map_cons, List.map_nil, List.foldl_cons,
      List.foldl_nil, true_and, false_and, ite_false, ite_true] <;>
    first
      | rfl
      | (split_ifs <;> first | rfl | simp_all)

/-- C9.  The generated news text is identical for any two values of the
1-day R²: the source computes the R²-conditioned verb (`verbo`,
threshold 0.10) but never interpolates it into the output, so the wording
does not differ with the short-horizon R², contrary to the claim.  (The
residual-share and risk-aversion conditionals do reach the output.) -/
theorem texto_news_ignora_r2 (fmt3 fmt1 : ℚ → String) (quant80 : List ℚ → ℚ)
    (cop : Option ℚ) (contrib : List (Option ℚ)) (residual : Option ℚ)
    (r2a r2b : Option ℚ) (vix : List (Option ℚ)) :
    generar_texto_news fmt3 fmt1 quant80 cop contrib residual r2a vix
      = generar_texto_news fmt3 fmt1 quant80 cop contrib residual r2b vix := rfl

end RelacionesCOP
